import Mathlib

/-!
Shallow embedding of the charging-control engine of `poll.py`
(emporia-solax-homeassistant): register decoders, the spurious-reading
filter (`PowerValidator`), the pure power calculator, the time-of-day
policy (`TimeBasedController`) and the per-charger decision logic
(`ChargerController`).  Machine floats of the source are modelled by `ℚ`,
Python `int` by `ℤ`; Python's truncating `int()` and banker's `round()`
get explicit counterparts.  Wall-clock instants are passed explicitly as
(local date, second-of-day) pairs, replacing `datetime.now(tz)`.
-/

namespace Solax

/-- `signed_16_bit` of `poll.py`: two's-complement reinterpretation of a
16-bit register value. -/
def signed_16_bit (value : ℤ) : ℤ :=
  if value > 32767 then value - 65536 else value

/-- `unsigned_32_bit` of `poll.py`: combine two 16-bit words into an
unsigned 32-bit integer. -/
def unsigned_32_bit (low_word high_word : ℤ) : ℤ :=
  (high_word * 65536) + low_word

/-- `signed_32_bit` of `poll.py`: combine two 16-bit words into a signed
32-bit integer. -/
def signed_32_bit (low_word high_word : ℤ) : ℤ :=
  if high_word < 32768 then (65536 * high_word) + low_word
  else low_word + (65536 * high_word) - 4294967296

/-- List-level string prefix test; models Python's `str.startswith`. -/
def strStartsWith (s pre : String) : Bool :=
  List.isPrefixOf pre.data s.data

/-- The power-family key test of `PowerValidator.validate_reading`:
keys beginning with `Power/`, `String` or `AC/Power`. -/
def isPowerKey (key : String) : Bool :=
  strStartsWith key "Power/" || strStartsWith key "String" || strStartsWith key "AC/Power"

/-- Most-recent-first association-list lookup; models a Python dict read
(`self.last_valid_readings[key]`). -/
def lookupLast : List (String × ℚ) → String → Option ℚ
  | [], _ => none
  | (k, v) :: rest, key => if key = k then some v else lookupLast rest key

/-- `PowerValidator.validate_reading` of `poll.py`.  The mutable
`last_valid_readings` dict is threaded explicitly as a most-recent-first
association list; a dict write becomes a cons.  Returns the admitted
value and the new filter state. -/
def validate_reading (threshold : ℚ) (st : List (String × ℚ)) (key : String)
    (value : ℚ) : ℚ × List (String × ℚ) :=
  if !(isPowerKey key) then (value, st)
  else if |value| > threshold then
    match lookupLast st key with
    | some lastv => (lastv, st)
    | none => (0, st)
  else (value, (key, value) :: st)

/-- Run a sequence of `validate_reading` calls from a given filter state,
collecting each (key, returned value) pair and the final state. -/
def runValidator (threshold : ℚ) :
    List (String × ℚ) → List (String × ℚ) → List (String × ℚ) × List (String × ℚ)
  | st, [] => ([], st)
  | st, kv :: rest =>
    ((kv.1, (validate_reading threshold st kv.1 kv.2).1) ::
       (runValidator threshold (validate_reading threshold st kv.1 kv.2).2 rest).1,
     (runValidator threshold (validate_reading threshold st kv.1 kv.2).2 rest).2)

/-- `PowerCalculator.calculate_battery_reserve` of `poll.py`. -/
def calculate_battery_reserve (soc_battery : ℤ) : ℤ :=
  if soc_battery < 75 then 1700
  else if soc_battery < 85 then 1200
  else if soc_battery < 95 then 700
  else if soc_battery < 99 then 500
  else 0

/-- Result record of `PowerCalculator.calculate_available_power`. -/
structure AvailablePower where
  available_excess : ℚ
  available_via_bus : ℚ
  available_for_charge : ℚ
  deriving Repr, DecidableEq

/-- `PowerCalculator.calculate_available_power` of `poll.py`.  The
`power_metrics` dict is flattened into its two consumed fields
(`excess`, `house_load`). -/
def calculate_available_power (excess house_load total_charger_load
    bus_maximum reserve_for_battery : ℚ) : AvailablePower :=
  { available_excess := excess + total_charger_load - reserve_for_battery,
    available_via_bus := bus_maximum - (house_load - total_charger_load),
    available_for_charge := min (excess + total_charger_load - reserve_for_battery)
      (bus_maximum - (house_load - total_charger_load)) }

/-- Python's truncating `int()` conversion on a rational. -/
def pyInt (q : ℚ) : ℤ :=
  if 0 ≤ q then q.floor else q.ceil

/-- Python's `round()` on a rational: nearest integer, ties to even. -/
def pyRound (q : ℚ) : ℤ :=
  if q - (q.floor : ℚ) < 1/2 then q.floor
  else if (1 : ℚ)/2 < q - (q.floor : ℚ) then q.floor + 1
  else if q.floor % 2 = 0 then q.floor else q.floor + 1

/-- A wall-clock instant in the policy's local time zone: a local date
(as an abstract day number) and a second-of-day.  Replaces
`datetime.now(self.timezone)`. -/
structure Instant where
  date : ℤ
  timeOfDay : ℕ
  deriving Repr, DecidableEq

/-- `TimeBasedController` of `poll.py`: configured boundaries
(seconds-of-day), currents, thresholds, and the mutable daily-latch
state (`daily_disabled`, `last_reset_date`). -/
structure TimeBasedController where
  switch_on_time : ℕ
  switch_off_time : ℕ
  fixed_charge_start : ℕ
  fixed_charge_end : ℕ
  fixed_charge_current : ℤ
  min_excess_threshold : ℚ
  battery_soc_threshold : ℤ
  min_current : ℤ
  max_current : ℤ
  daily_disabled : Bool
  last_reset_date : ℤ
  deriving Repr, DecidableEq

/-- `TimeBasedController._reset_daily_state_if_needed`: clear the daily
latch on the first observation of a new local date. -/
def reset_daily_state_if_needed (c : TimeBasedController) (today : ℤ) :
    TimeBasedController :=
  if today ≠ c.last_reset_date then
    { c with daily_disabled := false, last_reset_date := today }
  else c

/-- `TimeBasedController.is_unrestricted_period`: reset the daily state,
then test `fixed_charge_start ≤ now < fixed_charge_end`.  The updated
controller state is returned alongside the answer. -/
def is_unrestricted_period (c : TimeBasedController) (now : Instant) :
    Bool × TimeBasedController :=
  (decide ((reset_daily_state_if_needed c now.date).fixed_charge_start ≤ now.timeOfDay) &&
     decide (now.timeOfDay < (reset_daily_state_if_needed c now.date).fixed_charge_end),
   reset_daily_state_if_needed c now.date)

/-- `TimeBasedController.should_enable_based_on_time`. -/
def should_enable_based_on_time (c : TimeBasedController) (now : Instant)
    (excess_power : ℚ) (battery_soc : ℤ) : Bool × TimeBasedController :=
  if (reset_daily_state_if_needed c now.date).daily_disabled then
    (false, reset_daily_state_if_needed c now.date)
  else if (reset_daily_state_if_needed c now.date).switch_on_time ≤ now.timeOfDay ∧
      now.timeOfDay < (reset_daily_state_if_needed c now.date).switch_off_time then
    (decide (excess_power > (reset_daily_state_if_needed c now.date).min_excess_threshold) &&
       decide (battery_soc > (reset_daily_state_if_needed c now.date).battery_soc_threshold),
     reset_daily_state_if_needed c now.date)
  else (false, reset_daily_state_if_needed c now.date)

/-- `TimeBasedController.should_disable_based_on_time`: after
`switch_off_time` with negative excess, set the daily latch and answer
true. -/
def should_disable_based_on_time (c : TimeBasedController) (now : Instant)
    (excess_power : ℚ) : Bool × TimeBasedController :=
  if (reset_daily_state_if_needed c now.date).switch_off_time ≤ now.timeOfDay ∧
      excess_power < 0 then
    (true, { reset_daily_state_if_needed c now.date with daily_disabled := true })
  else (false, reset_daily_state_if_needed c now.date)

/-- `TimeBasedController.get_time_based_current` of `poll.py`: the
four-regime evaluation, threading the mutable latch state. -/
def get_time_based_current (c : TimeBasedController) (now : Instant)
    (excess_power : ℚ) (battery_soc : ℤ) (voltage : ℤ) :
    (ℤ × Bool) × TimeBasedController :=
  match is_unrestricted_period c now with
  | (true, c1) => ((c1.fixed_charge_current, true), c1)
  | (false, c1) =>
    match should_disable_based_on_time c1 now excess_power with
    | (true, c2) => ((c2.min_current, false), c2)
    | (false, c2) =>
      match should_enable_based_on_time c2 now excess_power battery_soc with
      | (true, c3) =>
        ((max (min (pyInt (excess_power / (voltage : ℚ))) c3.max_current) c3.min_current,
          true), c3)
      | (false, c3) => ((c3.min_current, false), c3)

/-- Static configuration of one `ChargerController`. -/
structure ChargerConfig where
  upper_limit : ℤ
  lower_limit : ℤ
  voltage : ℤ
  bus_maximum : ℤ
  buffer : ℚ
  is_primary : Bool
  deriving Repr, DecidableEq

/-- The per-controller dynamic fields that other controllers observe
through `all_controllers` (is_primary, charger_connected, charging,
charger_load). -/
structure PeerState where
  is_primary : Bool
  charger_connected : Bool
  charging : Bool
  charger_load : ℚ
  deriving Repr, DecidableEq

/-- The fields of the decoded inverter data consumed by the decision
logic (the remaining dict entries feed only logging and sensors). -/
structure InverterData where
  fromSolar : ℚ
  toHome : ℚ
  fromBattery : ℚ
  socBattery : ℤ
  deriving Repr, DecidableEq

/-- `ChargerController._check_time_conditions` of `poll.py`: hour-based
enable/disable tests on the system-local hour (`datetime.now()`, no
time zone).  Returns `(should_enable, should_disable)`. -/
def check_time_conditions (buffer : ℚ) (hour : ℕ) (soc_battery : ℤ)
    (fromSolar toHome fromBattery : ℚ) : Bool × Bool :=
  (decide (10 ≤ hour) && decide (hour < 16) && decide (soc_battery > 85) &&
     decide (fromSolar - toHome - buffer > 0),
   decide (16 ≤ hour) && decide (fromBattery > 0))

/-- `ChargerController._get_primary_charging_status`: first controller
flagged primary, in iteration order, reports `connected && charging`. -/
def primary_charging_status : List PeerState → Bool
  | [] => false
  | c :: rest =>
    if c.is_primary then c.charger_connected && c.charging
    else primary_charging_status rest

/-- `ChargerController._should_be_active` of `poll.py`: the loop over
`all_controllers` returning false at the first connected primary is the
`List.any` below. -/
def should_be_active (self_is_primary : Bool) (all_controllers : List PeerState)
    (se sd : Bool) : Bool :=
  if sd then false
  else if !se then true
  else if self_is_primary then true
  else if all_controllers.any (fun c => c.is_primary && c.charger_connected) then false
  else true

/-- `ChargerController._calculate_primary_current` of `poll.py`. -/
def calculate_primary_current (cc : ChargerConfig) (available_for_charge : ℚ) :
    ℤ × Bool :=
  if pyRound (available_for_charge / (cc.voltage : ℚ)) > cc.upper_limit then
    (cc.upper_limit, true)
  else if pyRound (available_for_charge / (cc.voltage : ℚ)) < cc.lower_limit then
    (cc.lower_limit, false)
  else (pyRound (available_for_charge / (cc.voltage : ℚ)), true)

/-- `ChargerController._calculate_secondary_current` of `poll.py`.
`num_other_secondaries` is the length of
`[c for c in all_controllers.values() if not c.is_primary and c != self]`. -/
def calculate_secondary_current (cc : ChargerConfig) (available_for_charge : ℚ)
    (primary_is_charging : Bool) (num_other_secondaries : ℕ) : ℤ × Bool :=
  if primary_is_charging then (cc.lower_limit, true)
  else if pyRound ((available_for_charge -
      (num_other_secondaries : ℚ) * (cc.lower_limit : ℚ) * (cc.voltage : ℚ)) /
      (cc.voltage : ℚ)) > cc.upper_limit then
    (cc.upper_limit, true)
  else if pyRound ((available_for_charge -
      (num_other_secondaries : ℚ) * (cc.lower_limit : ℚ) * (cc.voltage : ℚ)) /
      (cc.voltage : ℚ)) < cc.lower_limit then
    (cc.lower_limit, true)
  else
    (pyRound ((available_for_charge -
       (num_other_secondaries : ℚ) * (cc.lower_limit : ℚ) * (cc.voltage : ℚ)) /
       (cc.voltage : ℚ)), true)

/-- `ChargerController._calculate_proposed_current` of `poll.py`. -/
def calculate_proposed_current (cc : ChargerConfig) (available_for_charge : ℚ)
    (primary_is_charging : Bool) (num_other_secondaries : ℕ)
    (sba se sd : Bool) : ℤ × Bool :=
  if sd then (cc.lower_limit, false)
  else if !se then
    (if cc.is_primary then calculate_primary_current cc available_for_charge
     else calculate_secondary_current cc available_for_charge primary_is_charging
       num_other_secondaries)
  else if !sba then (cc.lower_limit, false)
  else if cc.is_primary then calculate_primary_current cc available_for_charge
  else calculate_secondary_current cc available_for_charge primary_is_charging
    num_other_secondaries

/-- `[c for c in all_controllers.values() if not c.is_primary and c != self]`:
the caller passes the fleet with `self` removed. -/
def num_other_secondaries (others : List PeerState) : ℕ :=
  (others.filter (fun c => !c.is_primary)).length

/-- The proposed `(current, enabled)` pair of `ChargerController.control`
(with a time controller configured), and the time policy's state after
the call.  `all_controllers.values()` is modelled as
`pre ++ selfSt :: post`; `now` is the policy-local instant, `sysHour`
the system-local hour read by `_check_time_conditions`. -/
def control_decision (cc : ChargerConfig) (tc : TimeBasedController)
    (now : Instant) (sysHour : ℕ) (inv : InverterData) (selfSt : PeerState)
    (pre post : List PeerState) : (ℤ × Bool) × TimeBasedController :=
  match get_time_based_current tc now (inv.fromSolar - inv.toHome - cc.buffer)
      inv.socBattery cc.voltage with
  | (tb, tc1) =>
    match is_unrestricted_period tc1 now with
    | (u, tc2) =>
      if u || tb.2 then (tb, tc2)
      else
        (calculate_proposed_current cc
          (calculate_available_power (inv.fromSolar - inv.toHome - cc.buffer)
            inv.toHome
            (((pre ++ selfSt :: post).map PeerState.charger_load).sum)
            (cc.bus_maximum : ℚ)
            ((calculate_battery_reserve inv.socBattery : ℤ) : ℚ)).available_for_charge
          (primary_charging_status (pre ++ selfSt :: post))
          (num_other_secondaries (pre ++ post))
          (should_be_active cc.is_primary (pre ++ selfSt :: post)
            (check_time_conditions cc.buffer sysHour inv.socBattery
              inv.fromSolar inv.toHome inv.fromBattery).1
            (check_time_conditions cc.buffer sysHour inv.socBattery
              inv.fromSolar inv.toHome inv.fromBattery).2)
          (check_time_conditions cc.buffer sysHour inv.socBattery
            inv.fromSolar inv.toHome inv.fromBattery).1
          (check_time_conditions cc.buffer sysHour inv.socBattery
            inv.fromSolar inv.toHome inv.fromBattery).2, tc2)

/-- Modelled from the spec (§4.4 regime 3 plus the latch, for the C2
comparison): the time policy's `should_disable` as §4.6 step 3 describes
it — local time at or after `day_close` with negative excess, or the
daily latch already set. -/
def specTimePolicy_should_disable (c : TimeBasedController) (t : ℕ)
    (excess : ℚ) : Bool :=
  (decide (c.switch_off_time ≤ t) && decide (excess < 0)) || c.daily_disabled

/-- Modelled from the spec (§4.4 regime 2, for the C2 comparison): the
daytime-window preconditions — `day_open ≤ now < day_close`, excess
above the configured threshold, SOC above the configured threshold, and
the daily latch clear. -/
def specTimePolicy_should_enable (c : TimeBasedController) (t : ℕ)
    (excess : ℚ) (soc : ℤ) : Bool :=
  decide (c.switch_on_time ≤ t) && decide (t < c.switch_off_time) &&
    decide (excess > c.min_excess_threshold) &&
    decide (soc > c.battery_soc_threshold) && !c.daily_disabled

/-! Helper lemmas: the daily reset and the policy's sub-evaluations only
touch `daily_disabled` and `last_reset_date`; every configured field is
preserved. -/

@[simp] lemma reset_min_current (c : TimeBasedController) (d : ℤ) :
    (reset_daily_state_if_needed c d).min_current = c.min_current := by
  unfold reset_daily_state_if_needed; split <;> rfl

@[simp] lemma reset_max_current (c : TimeBasedController) (d : ℤ) :
    (reset_daily_state_if_needed c d).max_current = c.max_current := by
  unfold reset_daily_state_if_needed; split <;> rfl

@[simp] lemma reset_fixed_charge_current (c : TimeBasedController) (d : ℤ) :
    (reset_daily_state_if_needed c d).fixed_charge_current = c.fixed_charge_current := by
  unfold reset_daily_state_if_needed; split <;> rfl

@[simp] lemma reset_fixed_charge_start (c : TimeBasedController) (d : ℤ) :
    (reset_daily_state_if_needed c d).fixed_charge_start = c.fixed_charge_start := by
  unfold reset_daily_state_if_needed; split <;> rfl

@[simp] lemma reset_fixed_charge_end (c : TimeBasedController) (d : ℤ) :
    (reset_daily_state_if_needed c d).fixed_charge_end = c.fixed_charge_end := by
  unfold reset_daily_state_if_needed; split <;> rfl

@[simp] lemma reset_switch_on_time (c : TimeBasedController) (d : ℤ) :
    (reset_daily_state_if_needed c d).switch_on_time = c.switch_on_time := by
  unfold reset_daily_state_if_needed; split <;> rfl

@[simp] lemma reset_switch_off_time (c : TimeBasedController) (d : ℤ) :
    (reset_daily_state_if_needed c d).switch_off_time = c.switch_off_time := by
  unfold reset_daily_state_if_needed; split <;> rfl

@[simp] lemma reset_min_excess_threshold (c : TimeBasedController) (d : ℤ) :
    (reset_daily_state_if_needed c d).min_excess_threshold = c.min_excess_threshold := by
  unfold reset_daily_state_if_needed; split <;> rfl

@[simp] lemma reset_battery_soc_threshold (c : TimeBasedController) (d : ℤ) :
    (reset_daily_state_if_needed c d).battery_soc_threshold = c.battery_soc_threshold := by
  unfold reset_daily_state_if_needed; split <;> rfl

@[simp] lemma reset_last_reset_date (c : TimeBasedController) (d : ℤ) :
    (reset_daily_state_if_needed c d).last_reset_date = d ∨
      (reset_daily_state_if_needed c d).last_reset_date = c.last_reset_date := by
  unfold reset_daily_state_if_needed; split <;> simp

lemma reset_of_ne (c : TimeBasedController) (d : ℤ) (h : d ≠ c.last_reset_date) :
    reset_daily_state_if_needed c d =
      { c with daily_disabled := false, last_reset_date := d } := by
  unfold reset_daily_state_if_needed; simp [h]

lemma reset_of_eq (c : TimeBasedController) (d : ℤ) (h : d = c.last_reset_date) :
    reset_daily_state_if_needed c d = c := by
  unfold reset_daily_state_if_needed; simp [h]

lemma reset_reset (c : TimeBasedController) (d : ℤ) :
    reset_daily_state_if_needed (reset_daily_state_if_needed c d) d =
      reset_daily_state_if_needed c d := by
  by_cases h : d = c.last_reset_date
  · rw [reset_of_eq c d h, reset_of_eq c d h]
  · rw [reset_of_ne c d h, reset_of_eq]; rfl

lemma reset_set_daily (c : TimeBasedController) (d : ℤ) :
    reset_daily_state_if_needed
        { reset_daily_state_if_needed c d with daily_disabled := true } d =
      { reset_daily_state_if_needed c d with daily_disabled := true } := by
  by_cases h : d = c.last_reset_date
  · rw [reset_of_eq c d h, reset_of_eq]; simp [h]
  · rw [reset_of_ne c d h, reset_of_eq]; rfl

@[simp] lemma isUnres_snd (c : TimeBasedController) (now : Instant) :
    (is_unrestricted_period c now).2 = reset_daily_state_if_needed c now.date := rfl

@[simp] lemma isUnres_fst (c : TimeBasedController) (now : Instant) :
    (is_unrestricted_period c now).1 =
      (decide (c.fixed_charge_start ≤ now.timeOfDay) &&
        decide (now.timeOfDay < c.fixed_charge_end)) := by
  unfold is_unrestricted_period; simp

@[simp] lemma sebot_snd (c : TimeBasedController) (now : Instant) (e : ℚ) (s : ℤ) :
    (should_enable_based_on_time c now e s).2 = reset_daily_state_if_needed c now.date := by
  unfold should_enable_based_on_time; split_ifs <;> rfl

@[simp] lemma sdbot_fst (c : TimeBasedController) (now : Instant) (e : ℚ) :
    (should_disable_based_on_time c now e).1 =
      decide (c.switch_off_time ≤ now.timeOfDay ∧ e < 0) := by
  unfold should_disable_based_on_time; split_ifs with h <;> simp_all

lemma sdbot_snd_cases (c : TimeBasedController) (now : Instant) (e : ℚ) :
    (should_disable_based_on_time c now e).2 = reset_daily_state_if_needed c now.date ∨
      (should_disable_based_on_time c now e).2 =
        { reset_daily_state_if_needed c now.date with daily_disabled := true } := by
  unfold should_disable_based_on_time; split_ifs <;> simp

@[simp] lemma sdbot_snd_min_current (c : TimeBasedController) (now : Instant) (e : ℚ) :
    ((should_disable_based_on_time c now e).2).min_current = c.min_current := by
  rcases sdbot_snd_cases c now e with h | h <;> rw [h] <;> simp

@[simp] lemma sdbot_snd_max_current (c : TimeBasedController) (now : Instant) (e : ℚ) :
    ((should_disable_based_on_time c now e).2).max_current = c.max_current := by
  rcases sdbot_snd_cases c now e with h | h <;> rw [h] <;> simp

@[simp] lemma sdbot_snd_fixed_charge_start (c : TimeBasedController) (now : Instant) (e : ℚ) :
    ((should_disable_based_on_time c now e).2).fixed_charge_start = c.fixed_charge_start := by
  rcases sdbot_snd_cases c now e with h | h <;> rw [h] <;> simp

@[simp] lemma sdbot_snd_fixed_charge_end (c : TimeBasedController) (now : Instant) (e : ℚ) :
    ((should_disable_based_on_time c now e).2).fixed_charge_end = c.fixed_charge_end := by
  rcases sdbot_snd_cases c now e with h | h <;> rw [h] <;> simp

@[simp] lemma sdbot_snd_daily (c : TimeBasedController) (now : Instant) (e : ℚ) :
    ((should_disable_based_on_time c now e).2).daily_disabled =
      ((should_disable_based_on_time c now e).1 ||
        (reset_daily_state_if_needed c now.date).daily_disabled) := by
  unfold should_disable_based_on_time; split_ifs <;> simp

lemma sdbot_snd_of_fst_false (c : TimeBasedController) (now : Instant) (e : ℚ)
    (h : (should_disable_based_on_time c now e).1 = false) :
    (should_disable_based_on_time c now e).2 = reset_daily_state_if_needed c now.date := by
  unfold should_disable_based_on_time at h ⊢
  split_ifs at h ⊢
  simp_all

/-! Structure lemmas for `get_time_based_current` and bounds lemmas for
the current computations. -/

lemma gtbc_of_unres (c : TimeBasedController) (now : Instant) (e : ℚ) (s v : ℤ)
    (h : (is_unrestricted_period c now).1 = true) :
    get_time_based_current c now e s v =
      (((reset_daily_state_if_needed c now.date).fixed_charge_current, true),
        reset_daily_state_if_needed c now.date) := by
  unfold get_time_based_current
  rcases h1 : is_unrestricted_period c now with ⟨u, c1⟩
  rw [h1] at h
  have hu : u = true := h
  subst hu
  have hc1 : c1 = reset_daily_state_if_needed c now.date := by
    rw [← isUnres_snd c now, h1]
  subst hc1
  rfl

lemma gtbc_snd_cases (c : TimeBasedController) (now : Instant) (e : ℚ) (s v : ℤ) :
    (get_time_based_current c now e s v).2 = reset_daily_state_if_needed c now.date ∨
      (get_time_based_current c now e s v).2 =
        { reset_daily_state_if_needed c now.date with daily_disabled := true } := by
  unfold get_time_based_current
  rcases h1 : is_unrestricted_period c now with ⟨u, c1⟩
  have hc1 : c1 = reset_daily_state_if_needed c now.date := by
    rw [← isUnres_snd c now, h1]
  cases u
  · dsimp only
    rcases h2 : should_disable_based_on_time c1 now e with ⟨db, c2⟩
    have hc2 := sdbot_snd_cases c1 now e
    rw [h2] at hc2
    dsimp only at hc2
    cases db
    · dsimp only
      rcases h3 : should_enable_based_on_time c2 now e s with ⟨eb, c3⟩
      have hc3 : c3 = reset_daily_state_if_needed c2 now.date := by
        rw [← sebot_snd c2 now e s, h3]
      have hsnd : c3 = reset_daily_state_if_needed c now.date ∨
          c3 = { reset_daily_state_if_needed c now.date with daily_disabled := true } := by
        rcases hc2 with h | h
        · left; rw [hc3, h, hc1]; simp only [reset_reset]
        · right; rw [hc3, h, hc1]; simp only [reset_reset, reset_set_daily]
      cases eb <;> dsimp only <;> exact hsnd
    · dsimp only
      rcases hc2 with h | h
      · left; rw [h, hc1]; simp only [reset_reset]
      · right; rw [h, hc1]; simp only [reset_reset]
  · dsimp only
    left; exact hc1

lemma gtbc_snd_fixed_charge_start (c : TimeBasedController) (now : Instant)
    (e : ℚ) (s v : ℤ) :
    ((get_time_based_current c now e s v).2).fixed_charge_start = c.fixed_charge_start := by
  rcases gtbc_snd_cases c now e s v with h | h <;> rw [h] <;> simp

lemma gtbc_snd_fixed_charge_end (c : TimeBasedController) (now : Instant)
    (e : ℚ) (s v : ℤ) :
    ((get_time_based_current c now e s v).2).fixed_charge_end = c.fixed_charge_end := by
  rcases gtbc_snd_cases c now e s v with h | h <;> rw [h] <;> simp

lemma gtbc_bounds (c : TimeBasedController) (now : Instant) (e : ℚ) (s v : ℤ)
    (hmm : c.min_current ≤ c.max_current)
    (hf1 : c.min_current ≤ c.fixed_charge_current)
    (hf2 : c.fixed_charge_current ≤ c.max_current) :
    c.min_current ≤ (get_time_based_current c now e s v).1.1 ∧
      (get_time_based_current c now e s v).1.1 ≤ c.max_current := by
  unfold get_time_based_current
  rcases h1 : is_unrestricted_period c now with ⟨u, c1⟩
  have hc1 : c1 = reset_daily_state_if_needed c now.date := by
    rw [← isUnres_snd c now, h1]
  cases u
  · dsimp only
    rcases h2 : should_disable_based_on_time c1 now e with ⟨db, c2⟩
    have hc2min : c2.min_current = c.min_current := by
      have := sdbot_snd_min_current c1 now e; rw [h2] at this
      rw [this, hc1]; simp
    have hc2max : c2.max_current = c.max_current := by
      have := sdbot_snd_max_current c1 now e; rw [h2] at this
      rw [this, hc1]; simp
    cases db
    · dsimp only
      rcases h3 : should_enable_based_on_time c2 now e s with ⟨eb, c3⟩
      have hc3 : c3 = reset_daily_state_if_needed c2 now.date := by
        rw [← sebot_snd c2 now e s, h3]
      have hc3min : c3.min_current = c.min_current := by rw [hc3]; simp [hc2min]
      have hc3max : c3.max_current = c.max_current := by rw [hc3]; simp [hc2max]
      cases eb <;> dsimp only
      · rw [hc3min]; exact ⟨le_refl _, hmm⟩
      · rw [hc3min, hc3max]
        constructor
        · exact le_max_right _ _
        · exact max_le (le_trans (min_le_right _ _) (le_refl _)) hmm
    · dsimp only
      rw [hc2min]; exact ⟨le_refl _, hmm⟩
  · dsimp only
    have : c1.fixed_charge_current = c.fixed_charge_current := by rw [hc1]; simp
    rw [this]; exact ⟨hf1, hf2⟩

lemma cpc_bounds (cc : ChargerConfig) (a : ℚ) (h : cc.lower_limit ≤ cc.upper_limit) :
    cc.lower_limit ≤ (calculate_primary_current cc a).1 ∧
      (calculate_primary_current cc a).1 ≤ cc.upper_limit := by
  unfold calculate_primary_current; split_ifs <;> constructor <;> omega

lemma cpc_snd_false (cc : ChargerConfig) (a : ℚ)
    (h : (calculate_primary_current cc a).2 = false) :
    (calculate_primary_current cc a).1 = cc.lower_limit := by
  unfold calculate_primary_current at h ⊢
  split_ifs at h ⊢
  simp_all

lemma csc_bounds (cc : ChargerConfig) (a : ℚ) (p : Bool) (n : ℕ)
    (h : cc.lower_limit ≤ cc.upper_limit) :
    cc.lower_limit ≤ (calculate_secondary_current cc a p n).1 ∧
      (calculate_secondary_current cc a p n).1 ≤ cc.upper_limit := by
  unfold calculate_secondary_current; split_ifs <;> constructor <;> omega

lemma csc_snd_true (cc : ChargerConfig) (a : ℚ) (p : Bool) (n : ℕ) :
    (calculate_secondary_current cc a p n).2 = true := by
  unfold calculate_secondary_current; split_ifs <;> rfl

lemma cprop_bounds (cc : ChargerConfig) (a : ℚ) (p : Bool) (n : ℕ) (sba se sd : Bool)
    (h : cc.lower_limit ≤ cc.upper_limit) :
    cc.lower_limit ≤ (calculate_proposed_current cc a p n sba se sd).1 ∧
      (calculate_proposed_current cc a p n sba se sd).1 ≤ cc.upper_limit := by
  unfold calculate_proposed_current
  split_ifs <;>
    first
      | exact ⟨le_refl _, h⟩
      | exact cpc_bounds cc a h
      | exact csc_bounds cc a p n h

lemma cprop_snd_false (cc : ChargerConfig) (a : ℚ) (p : Bool) (n : ℕ)
    (sba se sd : Bool) (h : (calculate_proposed_current cc a p n sba se sd).2 = false) :
    (calculate_proposed_current cc a p n sba se sd).1 = cc.lower_limit := by
  unfold calculate_proposed_current at h ⊢
  split_ifs at h ⊢ <;>
    first
      | rfl
      | exact cpc_snd_false cc a h
      | simp [csc_snd_true] at h

/-- C4: `calculate_available_power` returns
`available_for_charge = min(excess + total_charger_load − reserve,
bus_maximum − (house_load − total_charger_load))`, and consequently
`available_for_charge ≤ bus_maximum − house_load + total_charger_load`
for every input. -/
theorem C4_available_power (excess house_load total_charger_load
    bus_maximum reserve : ℚ) :
    (calculate_available_power excess house_load total_charger_load
        bus_maximum reserve).available_for_charge =
      min (excess + total_charger_load - reserve)
        (bus_maximum - (house_load - total_charger_load)) ∧
    (calculate_available_power excess house_load total_charger_load
        bus_maximum reserve).available_for_charge ≤
      bus_maximum - house_load + total_charger_load := by
  constructor
  · rfl
  · have h : (calculate_available_power excess house_load total_charger_load
        bus_maximum reserve).available_for_charge ≤
        bus_maximum - (house_load - total_charger_load) :=
      min_le_right _ _
    calc (calculate_available_power excess house_load total_charger_load
        bus_maximum reserve).available_for_charge
        ≤ bus_maximum - (house_load - total_charger_load) := h
      _ = bus_maximum - house_load + total_charger_load := by ring

/-- C7: `calculate_battery_reserve` realises the documented piecewise
schedule (1700 below 75, 1200 below 85, 700 below 95, 500 below 99,
0 from 99 up) and is monotonically non-increasing in SOC. -/
theorem C7_battery_reserve :
    (∀ s : ℤ,
      (s < 75 → calculate_battery_reserve s = 1700) ∧
      (75 ≤ s → s < 85 → calculate_battery_reserve s = 1200) ∧
      (85 ≤ s → s < 95 → calculate_battery_reserve s = 700) ∧
      (95 ≤ s → s < 99 → calculate_battery_reserve s = 500) ∧
      (99 ≤ s → calculate_battery_reserve s = 0)) ∧
    (∀ s t : ℤ, s ≤ t → calculate_battery_reserve t ≤ calculate_battery_reserve s) := by
  constructor
  · intro s
    unfold calculate_battery_reserve
    refine ⟨?_, ?_, ?_, ?_, ?_⟩ <;> intros <;> split_ifs <;> omega
  · intro s t hst
    unfold calculate_battery_reserve
    split_ifs <;> omega

/-- C7 witness: concrete instances of the schedule and monotonicity. -/
theorem C7_battery_reserve_witness :
    calculate_battery_reserve 50 = 1700 ∧ calculate_battery_reserve 99 = 0 ∧
      calculate_battery_reserve 99 ≤ calculate_battery_reserve 50 :=
  ⟨(C7_battery_reserve.1 50).1 (by decide),
   (C7_battery_reserve.1 99).2.2.2.2 (by decide),
   C7_battery_reserve.2 50 99 (by decide)⟩

/-- C9: the decoding helpers invert the field-sized encodings —
`signed_16_bit` on a wrapped 16-bit word, `unsigned_32_bit` on a
(low, high) split, and `signed_32_bit` on the split of the 32-bit
two's-complement image. -/
theorem C9_decoders :
    (∀ n : ℤ, -32768 ≤ n → n ≤ 32767 → signed_16_bit (n % 65536) = n) ∧
    (∀ n : ℤ, 0 ≤ n → n < 4294967296 →
      unsigned_32_bit (n % 65536) (n / 65536) = n) ∧
    (∀ n : ℤ, -2147483648 ≤ n → n < 2147483648 →
      signed_32_bit (n % 4294967296 % 65536) (n % 4294967296 / 65536) = n) := by
  refine ⟨?_, ?_, ?_⟩ <;> intro n h1 h2 <;>
    simp only [signed_16_bit, unsigned_32_bit, signed_32_bit] <;>
    first
      | (split_ifs <;> omega)
      | omega

/-- C9 witness: the round-trips at concrete in-range inputs. -/
theorem C9_decoders_witness :
    signed_16_bit ((-5 : ℤ) % 65536) = -5 ∧
      unsigned_32_bit ((70000 : ℤ) % 65536) ((70000 : ℤ) / 65536) = 70000 ∧
      signed_32_bit ((-70000 : ℤ) % 4294967296 % 65536)
        ((-70000 : ℤ) % 4294967296 / 65536) = -70000 :=
  ⟨C9_decoders.1 (-5) (by decide) (by decide),
   C9_decoders.2.1 70000 (by decide) (by decide),
   C9_decoders.2.2 (-70000) (by decide) (by decide)⟩

/-- C6: `validate_reading` on a power-family key admits and stores an
in-threshold value, substitutes the stored last good value (or 0 when
none exists) for an out-of-threshold value without touching the store,
and passes non-power keys through unchanged. -/
theorem C6_validate_reading :
    ∀ (T : ℚ) (st : List (String × ℚ)) (k : String) (v : ℚ),
      (isPowerKey k = true → |v| ≤ T →
        validate_reading T st k v = (v, (k, v) :: st) ∧
        lookupLast (validate_reading T st k v).2 k = some v) ∧
      (isPowerKey k = true → T < |v| →
        validate_reading T st k v = ((lookupLast st k).getD 0, st)) ∧
      (isPowerKey k = false → validate_reading T st k v = (v, st)) := by
  intro T st k v
  refine ⟨?_, ?_, ?_⟩
  · intro hp hv
    have heq : validate_reading T st k v = (v, (k, v) :: st) := by
      unfold validate_reading
      simp [hp, not_lt.mpr hv]
    refine ⟨heq, ?_⟩
    rw [heq]
    unfold lookupLast
    simp
  · intro hp hv
    unfold validate_reading
    simp only [hp, Bool.not_true, Bool.false_eq_true, if_false]
    rw [if_pos hv]
    cases h : lookupLast st k <;> simp [h]
  · intro hp
    unfold validate_reading
    simp [hp]

/-- C6 witness: scenario 4 of the spec — threshold 50000, previous good
`Power/FromSolar = 6000`, spurious raw 123456 is replaced by 6000; an
in-threshold 6000 is admitted and stored; a non-power key passes
through. -/
theorem C6_validate_reading_witness :
    validate_reading 50000 [] "Power/FromSolar" 6000 =
        (6000, [("Power/FromSolar", 6000)]) ∧
      validate_reading 50000 [("Power/FromSolar", 6000)] "Power/FromSolar" 123456 =
        ((lookupLast [("Power/FromSolar", 6000)] "Power/FromSolar").getD 0,
          [("Power/FromSolar", 6000)]) ∧
      validate_reading 50000 [] "Battery/SOC" 123456 = (123456, []) :=
  ⟨((C6_validate_reading 50000 [] "Power/FromSolar" 6000).1 (by decide) (by decide)).1,
   (C6_validate_reading 50000 [("Power/FromSolar", 6000)] "Power/FromSolar" 123456).2.1
     (by decide) (by decide),
   (C6_validate_reading 50000 [] "Battery/SOC" 123456).2.2 (by decide)⟩

/-- C3: the energy-branch current computation — the primary clamps
`round(available / voltage)` to `(max, enabled)` above range, pauses
with `(min, disabled)` below range, and passes the rounded value
through otherwise; the secondary yields `(min, enabled)` while the
primary charges, and otherwise clamps the reservation-reduced budget
with `(min, enabled)` as the below-minimum outcome. -/
theorem C3_current_computation :
    ∀ (cc : ChargerConfig) (avail : ℚ) (n : ℕ),
      cc.lower_limit ≤ cc.upper_limit →
      (pyRound (avail / (cc.voltage : ℚ)) > cc.upper_limit →
        calculate_primary_current cc avail = (cc.upper_limit, true)) ∧
      (pyRound (avail / (cc.voltage : ℚ)) < cc.lower_limit →
        calculate_primary_current cc avail = (cc.lower_limit, false)) ∧
      (cc.lower_limit ≤ pyRound (avail / (cc.voltage : ℚ)) →
        pyRound (avail / (cc.voltage : ℚ)) ≤ cc.upper_limit →
        calculate_primary_current cc avail =
          (pyRound (avail / (cc.voltage : ℚ)), true)) ∧
      (calculate_secondary_current cc avail true n = (cc.lower_limit, true)) ∧
      (pyRound ((avail - (n : ℚ) * (cc.lower_limit : ℚ) * (cc.voltage : ℚ)) /
          (cc.voltage : ℚ)) > cc.upper_limit →
        calculate_secondary_current cc avail false n = (cc.upper_limit, true)) ∧
      (pyRound ((avail - (n : ℚ) * (cc.lower_limit : ℚ) * (cc.voltage : ℚ)) /
          (cc.voltage : ℚ)) < cc.lower_limit →
        calculate_secondary_current cc avail false n = (cc.lower_limit, true)) ∧
      (cc.lower_limit ≤ pyRound ((avail - (n : ℚ) * (cc.lower_limit : ℚ) *
          (cc.voltage : ℚ)) / (cc.voltage : ℚ)) →
        pyRound ((avail - (n : ℚ) * (cc.lower_limit : ℚ) * (cc.voltage : ℚ)) /
          (cc.voltage : ℚ)) ≤ cc.upper_limit →
        calculate_secondary_current cc avail false n =
          (pyRound ((avail - (n : ℚ) * (cc.lower_limit : ℚ) * (cc.voltage : ℚ)) /
            (cc.voltage : ℚ)), true)) := by
  intro cc avail n hlim
  refine ⟨?_, ?_, ?_, ?_, ?_, ?_, ?_⟩
  · intro hgt
    unfold calculate_primary_current
    rw [if_pos hgt]
  · intro hlt
    unfold calculate_primary_current
    rw [if_neg (by omega), if_pos hlt]
  · intro hge hle
    unfold calculate_primary_current
    rw [if_neg (by omega), if_neg (by omega)]
  · unfold calculate_secondary_current
    rw [if_pos rfl]
  · intro hgt
    unfold calculate_secondary_current
    rw [if_neg (by simp), if_pos hgt]
  · intro hlt
    unfold calculate_secondary_current
    rw [if_neg (by simp), if_neg (by omega), if_pos hlt]
  · intro hge hle
    unfold calculate_secondary_current
    rw [if_neg (by simp), if_neg (by omega), if_neg (by omega)]

/-- C3 witness: scenario 1 of the spec — 5800 W at 240 V gives the
primary `(24, enabled)`; with the primary charging, the secondary gets
`(6, enabled)`. -/
theorem C3_current_computation_witness :
    calculate_primary_current
        { upper_limit := 30, lower_limit := 6, voltage := 240, bus_maximum := 7000,
          buffer := 100, is_primary := true } 5800 = (24, true) ∧
      calculate_secondary_current
        { upper_limit := 30, lower_limit := 6, voltage := 240, bus_maximum := 7000,
          buffer := 100, is_primary := false } 5800 true 0 = (6, true) := by
  have h1 := (C3_current_computation
    { upper_limit := 30, lower_limit := 6, voltage := 240, bus_maximum := 7000,
      buffer := 100, is_primary := true } 5800 0 (by decide)).2.2.1
    (by norm_num [pyRound, Rat.floor]) (by norm_num [pyRound, Rat.floor])
  have h2 := (C3_current_computation
    { upper_limit := 30, lower_limit := 6, voltage := 240, bus_maximum := 7000,
      buffer := 100, is_primary := false } 5800 0 (by decide)).2.2.2.1
  refine ⟨h1.trans ?_, h2⟩
  norm_num [pyRound, Rat.floor]

/-- C2 counterexample: at system hour 17 with positive excess (solar
5000, house 1000, buffer 100, SOC 90, battery discharging 100 W) and a
policy configured with `day_close = 18:00` and a clear latch at local
time 17:00, `_check_time_conditions` reports `should_disable = true`
and `should_enable = false`, while the regime-3 condition is false and
the daytime-window preconditions hold — refuting the claimed
equivalences. -/
theorem C2_counterexample :
    check_time_conditions 100 17 90 5000 1000 100 = (false, true) ∧
      specTimePolicy_should_disable
        { switch_on_time := 39600, switch_off_time := 64800, fixed_charge_start := 600,
          fixed_charge_end := 21600, fixed_charge_current := 40,
          min_excess_threshold := 1440, battery_soc_threshold := 85, min_current := 6,
          max_current := 30, daily_disabled := false, last_reset_date := 0 }
        61200 3900 = false ∧
      specTimePolicy_should_enable
        { switch_on_time := 39600, switch_off_time := 64800, fixed_charge_start := 600,
          fixed_charge_end := 21600, fixed_charge_current := 40,
          min_excess_threshold := 1440, battery_soc_threshold := 85, min_current := 6,
          max_current := 30, daily_disabled := false, last_reset_date := 0 }
        61200 3900 90 = true := by
  decide

/-- C2 amended: in the energy branch, `should_enable` is true exactly
when the system-local hour satisfies `10 ≤ hour < 16`, battery SOC
exceeds 85 %, and `FromSolar − ToHome − buffer > 0`; `should_disable`
is true exactly when `hour ≥ 16` and `Power/FromBattery > 0`.  The
configured day_open/day_close boundaries, the excess and SOC
thresholds, and the daily latch play no part here. -/
theorem C2_amended_hour_conditions :
    ∀ (buffer : ℚ) (hour : ℕ) (soc : ℤ) (fromSolar toHome fromBattery : ℚ),
      check_time_conditions buffer hour soc fromSolar toHome fromBattery =
        (decide (10 ≤ hour ∧ hour < 16 ∧ 85 < soc ∧ 0 < fromSolar - toHome - buffer),
         decide (16 ≤ hour ∧ 0 < fromBattery)) := by
  intro buffer hour soc fromSolar toHome fromBattery
  unfold check_time_conditions
  by_cases h1 : 10 ≤ hour <;> by_cases h2 : hour < 16 <;>
    by_cases h3 : (85 : ℤ) < soc <;> by_cases h4 : 0 < fromSolar - toHome - buffer <;>
    by_cases h5 : 16 ≤ hour <;> by_cases h6 : 0 < fromBattery <;>
    simp [h1, h2, h3, h4, h5, h6]

/-- C10 auxiliary: a `validate_reading` step from a bounded store
returns a bounded value on power keys and keeps the store bounded. -/
lemma validate_reading_sound (T : ℚ) (hT : 0 ≤ T) (st : List (String × ℚ))
    (hst : ∀ k v, lookupLast st k = some v → |v| ≤ T) (key : String) (value : ℚ) :
    (isPowerKey key = true → |(validate_reading T st key value).1| ≤ T) ∧
      (∀ k v, lookupLast (validate_reading T st key value).2 k = some v → |v| ≤ T) := by
  unfold validate_reading
  by_cases hp : isPowerKey key
  · by_cases hv : |value| > T
    · cases h : lookupLast st key with
      | none =>
        refine ⟨fun _ => ?_, ?_⟩
        · simpa [hp, hv, h] using hT
        · simpa [hp, hv, h] using hst
      | some lastv =>
        refine ⟨fun _ => ?_, ?_⟩
        · simpa [hp, hv, h] using hst key lastv h
        · simpa [hp, hv, h] using hst
    · constructor
      · intro
        simpa [hp, hv] using le_of_not_lt hv
      · intro k v hkv
        rw [if_neg (by simp [hp]), if_neg hv] at hkv
        dsimp only at hkv
        unfold lookupLast at hkv
        by_cases hk : k = key
        · rw [if_pos hk] at hkv
          cases hkv
          exact le_of_not_lt hv
        · rw [if_neg hk] at hkv
          exact hst k v hkv
  · constructor
    · intro hpk
      rw [hpk] at hp
      exact absurd rfl hp
    · intro k v hkv
      rw [if_pos (by simp [hp])] at hkv
      exact hst k v hkv

/-- C10 auxiliary: every power-key output of a run of the filter from a
bounded store is bounded by the threshold. -/
lemma runValidator_sound (T : ℚ) (hT : 0 ≤ T) :
    ∀ (calls : List (String × ℚ)) (st : List (String × ℚ)),
      (∀ k v, lookupLast st k = some v → |v| ≤ T) →
      ∀ p ∈ (runValidator T st calls).1, isPowerKey p.1 = true → |p.2| ≤ T := by
  intro calls
  induction calls with
  | nil => intro st _ p hp; simp [runValidator] at hp
  | cons kv rest ih =>
    intro st hst p hp hkey
    rw [runValidator] at hp
    rcases List.mem_cons.mp hp with h | h
    · subst h
      exact (validate_reading_sound T hT st hst kv.1 kv.2).1 hkey
    · exact ih (validate_reading T st kv.1 kv.2).2
        (validate_reading_sound T hT st hst kv.1 kv.2).2 p h hkey

/-- C10: for every sequence of `validate_reading` calls starting from
the empty last-valid map, every value returned for a power-family key
has absolute value at most the (nonnegative) threshold. -/
theorem C10_filter_never_exceeds :
    ∀ (T : ℚ), 0 ≤ T → ∀ (calls : List (String × ℚ)) (p : String × ℚ),
      p ∈ (runValidator T [] calls).1 → isPowerKey p.1 = true → |p.2| ≤ T := by
  intro T hT calls p hp hkey
  exact runValidator_sound T hT calls [] (by intro k v h; simp [lookupLast] at h) p hp hkey

/-- C10 witness: a single spurious call with no history returns 0,
which is within the threshold. -/
theorem C10_filter_never_exceeds_witness : |(0 : ℚ)| ≤ (50000 : ℚ) :=
  C10_filter_never_exceeds 50000 (by decide) [("Power/X", 99999)]
    ("Power/X", 0) (by decide) (by decide)

/-- C1 counterexample: with the source's default configuration
(`fixed_charge_current = 40`, `max_current = upper_limit = 30`,
`min_current = lower_limit = 6`) a decision taken inside the
unrestricted window (02:00 local) commands 40 A, which exceeds
`max_current` — refuting `min_current ≤ c ≤ max_current` for every
decision of `ChargerController.control`. -/
theorem C1_counterexample :
    (control_decision
      { upper_limit := 30, lower_limit := 6, voltage := 240, bus_maximum := 7000,
        buffer := 100, is_primary := true }
      { switch_on_time := 39600, switch_off_time := 64800, fixed_charge_start := 600,
        fixed_charge_end := 21600, fixed_charge_current := 40,
        min_excess_threshold := 1440, battery_soc_threshold := 85, min_current := 6,
        max_current := 30, daily_disabled := false, last_reset_date := 0 }
      { date := 0, timeOfDay := 7200 } 2
      { fromSolar := 0, toHome := 0, fromBattery := 0, socBattery := 50 }
      { is_primary := true, charger_connected := true, charging := false,
        charger_load := 0 }
      [] []).1 = (40, true) ∧
    ¬ ((control_decision
      { upper_limit := 30, lower_limit := 6, voltage := 240, bus_maximum := 7000,
        buffer := 100, is_primary := true }
      { switch_on_time := 39600, switch_off_time := 64800, fixed_charge_start := 600,
        fixed_charge_end := 21600, fixed_charge_current := 40,
        min_excess_threshold := 1440, battery_soc_threshold := 85, min_current := 6,
        max_current := 30, daily_disabled := false, last_reset_date := 0 }
      { date := 0, timeOfDay := 7200 } 2
      { fromSolar := 0, toHome := 0, fromBattery := 0, socBattery := 50 }
      { is_primary := true, charger_connected := true, charging := false,
        charger_load := 0 }
      [] []).1.1 ≤ 30) := by
  decide

/-- C1 amended: every decision of `ChargerController.control` satisfies
`min_current ≤ c ≤ max_current`, provided the configured limits agree
between the time policy and the charger (`tc.min_current =
lower_limit`, `tc.max_current = upper_limit`), `min ≤ max`, and the
unrestricted-window `fixed_charge_current` itself lies within the
limits (which the source never enforces). -/
theorem C1_amended_bounds :
    ∀ (cc : ChargerConfig) (tc : TimeBasedController) (now : Instant) (sysHour : ℕ)
      (inv : InverterData) (selfSt : PeerState) (pre post : List PeerState),
      tc.min_current = cc.lower_limit → tc.max_current = cc.upper_limit →
      cc.lower_limit ≤ cc.upper_limit →
      cc.lower_limit ≤ tc.fixed_charge_current →
      tc.fixed_charge_current ≤ cc.upper_limit →
      cc.lower_limit ≤ (control_decision cc tc now sysHour inv selfSt pre post).1.1 ∧
        (control_decision cc tc now sysHour inv selfSt pre post).1.1 ≤ cc.upper_limit := by
  intro cc tc now sysHour inv selfSt pre post hmin hmax hlim hf1 hf2
  have hmm : tc.min_current ≤ tc.max_current := by rw [hmin, hmax]; exact hlim
  have hf1t : tc.min_current ≤ tc.fixed_charge_current := by rw [hmin]; exact hf1
  have hf2t : tc.fixed_charge_current ≤ tc.max_current := by rw [hmax]; exact hf2
  have hb := gtbc_bounds tc now (inv.fromSolar - inv.toHome - cc.buffer)
    inv.socBattery cc.voltage hmm hf1t hf2t
  unfold control_decision
  rcases hg : get_time_based_current tc now (inv.fromSolar - inv.toHome - cc.buffer)
    inv.socBattery cc.voltage with ⟨tb, tc1⟩
  rw [hg] at hb
  dsimp only at hb
  dsimp only
  rcases hu : is_unrestricted_period tc1 now with ⟨u, tc2⟩
  dsimp only
  by_cases hc : (u || tb.2) = true
  · rw [if_pos hc]
    dsimp only
    rw [← hmin, ← hmax] at hlim ⊢
    exact hb
  · rw [if_neg hc]
    dsimp only
    exact cprop_bounds cc _ _ _ _ _ _ hlim

/-- C1 amended witness: with `fixed_charge_current = 30` inside the
limits, the unrestricted-window decision lies within `[6, 30]`. -/
theorem C1_amended_bounds_witness :
    (6 : ℤ) ≤ (control_decision
      { upper_limit := 30, lower_limit := 6, voltage := 240, bus_maximum := 7000,
        buffer := 100, is_primary := true }
      { switch_on_time := 39600, switch_off_time := 64800, fixed_charge_start := 600,
        fixed_charge_end := 21600, fixed_charge_current := 30,
        min_excess_threshold := 1440, battery_soc_threshold := 85, min_current := 6,
        max_current := 30, daily_disabled := false, last_reset_date := 0 }
      { date := 0, timeOfDay := 7200 } 2
      { fromSolar := 0, toHome := 0, fromBattery := 0, socBattery := 50 }
      { is_primary := true, charger_connected := true, charging := false,
        charger_load := 0 }
      [] []).1.1 ∧
    (control_decision
      { upper_limit := 30, lower_limit := 6, voltage := 240, bus_maximum := 7000,
        buffer := 100, is_primary := true }
      { switch_on_time := 39600, switch_off_time := 64800, fixed_charge_start := 600,
        fixed_charge_end := 21600, fixed_charge_current := 30,
        min_excess_threshold := 1440, battery_soc_threshold := 85, min_current := 6,
        max_current := 30, daily_disabled := false, last_reset_date := 0 }
      { date := 0, timeOfDay := 7200 } 2
      { fromSolar := 0, toHome := 0, fromBattery := 0, socBattery := 50 }
      { is_primary := true, charger_connected := true, charging := false,
        charger_load := 0 }
      [] []).1.1 ≤ (30 : ℤ) :=
  C1_amended_bounds
    { upper_limit := 30, lower_limit := 6, voltage := 240, bus_maximum := 7000,
      buffer := 100, is_primary := true }
    { switch_on_time := 39600, switch_off_time := 64800, fixed_charge_start := 600,
      fixed_charge_end := 21600, fixed_charge_current := 30,
      min_excess_threshold := 1440, battery_soc_threshold := 85, min_current := 6,
      max_current := 30, daily_disabled := false, last_reset_date := 0 }
    { date := 0, timeOfDay := 7200 } 2
    { fromSolar := 0, toHome := 0, fromBattery := 0, socBattery := 50 }
    { is_primary := true, charger_connected := true, charging := false,
      charger_load := 0 }
    [] [] rfl rfl (by decide) (by decide) (by decide)

/-- C8: for every decision of `ChargerController.control` (time-policy
branch or energy branch), a disabled proposal carries `min_current`
(the lower limit). -/
theorem C8_disabled_implies_min :
    ∀ (cc : ChargerConfig) (tc : TimeBasedController) (now : Instant) (sysHour : ℕ)
      (inv : InverterData) (selfSt : PeerState) (pre post : List PeerState),
      (control_decision cc tc now sysHour inv selfSt pre post).1.2 = false →
      (control_decision cc tc now sysHour inv selfSt pre post).1.1 = cc.lower_limit := by
  intro cc tc now sysHour inv selfSt pre post h
  unfold control_decision at h ⊢
  rcases hg : get_time_based_current tc now (inv.fromSolar - inv.toHome - cc.buffer)
    inv.socBattery cc.voltage with ⟨tb, tc1⟩
  rw [hg] at h
  dsimp only at h ⊢
  rcases hu : is_unrestricted_period tc1 now with ⟨u, tc2⟩
  rw [hu] at h
  dsimp only at h ⊢
  by_cases hc : (u || tb.2) = true
  · rw [if_pos hc] at h ⊢
    dsimp only at h ⊢
    have hc' : u = true ∨ tb.2 = true := by simpa using hc
    have hub : u = true := by
      rcases hc' with h' | h'
      · exact h'
      · rw [h'] at h; exact absurd h (by decide)
    have htc1 : tc1 = (get_time_based_current tc now
        (inv.fromSolar - inv.toHome - cc.buffer) inv.socBattery cc.voltage).2 := by
      rw [hg]
    have hfs : tc1.fixed_charge_start = tc.fixed_charge_start := by
      rw [htc1]; exact gtbc_snd_fixed_charge_start tc now _ _ _
    have hfe : tc1.fixed_charge_end = tc.fixed_charge_end := by
      rw [htc1]; exact gtbc_snd_fixed_charge_end tc now _ _ _
    have huc : (is_unrestricted_period tc now).1 = true := by
      have h0 : (is_unrestricted_period tc1 now).1 = u := by rw [hu]
      rw [isUnres_fst] at h0
      rw [isUnres_fst, ← hfs, ← hfe, h0]
      exact hub
    have hgu := gtbc_of_unres tc now (inv.fromSolar - inv.toHome - cc.buffer)
      inv.socBattery cc.voltage huc
    rw [hg, Prod.mk.injEq] at hgu
    have htb2 : tb.2 = true := by rw [hgu.1]
    rw [htb2] at h
    exact absurd h (by decide)
  · rw [if_neg hc] at h ⊢
    dsimp only at h ⊢
    exact cprop_snd_false cc _ _ _ _ _ _ h

/-- C8 witness: at 08:00 with no solar and SOC 50 the energy branch
pauses a primary charger: the decision is disabled and the proposed
current equals the lower limit 6 A. -/
theorem C8_disabled_implies_min_witness :
    (control_decision
      { upper_limit := 30, lower_limit := 6, voltage := 240, bus_maximum := 7000,
        buffer := 100, is_primary := true }
      { switch_on_time := 39600, switch_off_time := 64800, fixed_charge_start := 600,
        fixed_charge_end := 21600, fixed_charge_current := 40,
        min_excess_threshold := 1440, battery_soc_threshold := 85, min_current := 6,
        max_current := 30, daily_disabled := false, last_reset_date := 0 }
      { date := 0, timeOfDay := 28800 } 8
      { fromSolar := 0, toHome := 0, fromBattery := 0, socBattery := 50 }
      { is_primary := true, charger_connected := true, charging := false,
        charger_load := 0 }
      [] []).1.1 = (6 : ℤ) :=
  C8_disabled_implies_min
    { upper_limit := 30, lower_limit := 6, voltage := 240, bus_maximum := 7000,
      buffer := 100, is_primary := true }
    { switch_on_time := 39600, switch_off_time := 64800, fixed_charge_start := 600,
      fixed_charge_end := 21600, fixed_charge_current := 40,
      min_excess_threshold := 1440, battery_soc_threshold := 85, min_current := 6,
      max_current := 30, daily_disabled := false, last_reset_date := 0 }
    { date := 0, timeOfDay := 28800 } 8
    { fromSolar := 0, toHome := 0, fromBattery := 0, socBattery := 50 }
    { is_primary := true, charger_connected := true, charging := false,
      charger_load := 0 }
    [] []
    (by norm_num [control_decision, get_time_based_current, is_unrestricted_period,
      reset_daily_state_if_needed, should_disable_based_on_time,
      should_enable_based_on_time, pyInt, pyRound, Rat.floor, Rat.ceil,
      calculate_proposed_current, calculate_primary_current,
      calculate_secondary_current, calculate_available_power,
      calculate_battery_reserve, check_time_conditions, should_be_active,
      primary_charging_status, num_other_secondaries])

/-- C5 counterexample: with an unrestricted window 19:00–23:00
overlapping the post-`day_close` evening (day_close 18:00), an
evaluation at 20:00 with negative excess emits `(40, enabled)` and
leaves the daily latch clear — refuting "whenever an evaluation occurs
at or after day_close with negative excess, daily_disabled is set and
(min_current, enabled=false) is emitted". -/
theorem C5_counterexample :
    (get_time_based_current
      { switch_on_time := 39600, switch_off_time := 64800, fixed_charge_start := 68400,
        fixed_charge_end := 82800, fixed_charge_current := 40,
        min_excess_threshold := 1440, battery_soc_threshold := 85, min_current := 6,
        max_current := 30, daily_disabled := false, last_reset_date := 0 }
      { date := 0, timeOfDay := 72000 } (-100) 50 240).1 = (40, true) ∧
    ((get_time_based_current
      { switch_on_time := 39600, switch_off_time := 64800, fixed_charge_start := 68400,
        fixed_charge_end := 82800, fixed_charge_current := 40,
        min_excess_threshold := 1440, battery_soc_threshold := 85, min_current := 6,
        max_current := 30, daily_disabled := false, last_reset_date := 0 }
      { date := 0, timeOfDay := 72000 } (-100) 50 240).2).daily_disabled = false := by
  decide

/-- C5 amended: (1) whenever an evaluation occurs outside the
unrestricted window at a local time at or after day_close with negative
excess, the latch is set and `(min_current, false)` is emitted; (2)
once the latch is set, every evaluation on the same local date outside
the unrestricted window emits `(min_current, false)` regardless of
excess and SOC; (3) on an evaluation whose local date differs from
`last_reset_date` the latch is cleared before evaluation (so
`daily_disabled` is false within one cycle of midnight unless that very
evaluation re-latches). -/
theorem C5_amended_daily_latch :
    (∀ (c : TimeBasedController) (now : Instant) (excess : ℚ) (soc voltage : ℤ),
      ¬ (c.fixed_charge_start ≤ now.timeOfDay ∧ now.timeOfDay < c.fixed_charge_end) →
      c.switch_off_time ≤ now.timeOfDay → excess < 0 →
      (get_time_based_current c now excess soc voltage).1 = (c.min_current, false) ∧
        ((get_time_based_current c now excess soc voltage).2).daily_disabled = true) ∧
    (∀ (c : TimeBasedController) (now : Instant) (excess : ℚ) (soc voltage : ℤ),
      c.daily_disabled = true → now.date = c.last_reset_date →
      ¬ (c.fixed_charge_start ≤ now.timeOfDay ∧ now.timeOfDay < c.fixed_charge_end) →
      (get_time_based_current c now excess soc voltage).1 = (c.min_current, false)) ∧
    (∀ (c : TimeBasedController) (today : ℤ), today ≠ c.last_reset_date →
      reset_daily_state_if_needed c today =
        { c with daily_disabled := false, last_reset_date := today } ∧
      ∀ (now : Instant) (excess : ℚ) (soc voltage : ℤ), now.date = today →
        get_time_based_current c now excess soc voltage =
          get_time_based_current
            { c with daily_disabled := false, last_reset_date := today }
            now excess soc voltage) := by
  refine ⟨?_, ?_, ?_⟩
  · intro c now excess soc voltage hnu hoff hneg
    have hu : (is_unrestricted_period c now).1 = false := by
      rw [isUnres_fst]
      rcases not_and_or.mp hnu with h | h <;> simp [h]
    unfold get_time_based_current
    rcases h1 : is_unrestricted_period c now with ⟨u, c1⟩
    rw [h1] at hu
    dsimp only at hu
    subst hu
    dsimp only
    have hc1 : c1 = reset_daily_state_if_needed c now.date := by
      rw [← isUnres_snd c now, h1]
    have hc1off : c1.switch_off_time = c.switch_off_time := by rw [hc1]; simp
    have hd1 : (should_disable_based_on_time c1 now excess).1 = true := by
      rw [sdbot_fst, hc1off]
      simp [hoff, hneg]
    rcases h2 : should_disable_based_on_time c1 now excess with ⟨db, c2⟩
    rw [h2] at hd1
    dsimp only at hd1
    subst hd1
    dsimp only
    have hc2min : c2.min_current = c.min_current := by
      have hx := sdbot_snd_min_current c1 now excess
      rw [h2] at hx
      dsimp only at hx
      rw [hx, hc1]; simp
    have hc2d : c2.daily_disabled = true := by
      have hx := sdbot_snd_daily c1 now excess
      rw [h2] at hx
      dsimp only at hx
      simp at hx
      exact hx
    exact ⟨by rw [hc2min], hc2d⟩
  · intro c now excess soc voltage hdd hdate hnu
    have hreset : reset_daily_state_if_needed c now.date = c :=
      reset_of_eq c now.date hdate
    have hu : (is_unrestricted_period c now).1 = false := by
      rw [isUnres_fst]
      rcases not_and_or.mp hnu with h | h <;> simp [h]
    unfold get_time_based_current
    rcases h1 : is_unrestricted_period c now with ⟨u, c1⟩
    rw [h1] at hu
    dsimp only at hu
    subst hu
    dsimp only
    have hc1r : c1 = reset_daily_state_if_needed c now.date := by
      rw [← isUnres_snd c now, h1]
    have hc1 : c1 = c := by rw [hc1r, hreset]
    rcases h2 : should_disable_based_on_time c1 now excess with ⟨db, c2⟩
    cases db
    · dsimp only
      have hc2 : c2 = c := by
        have hx := congrArg Prod.snd h2
        have hy := sdbot_snd_of_fst_false c1 now excess (by rw [h2])
        rw [hy] at hx
        dsimp only at hx
        rw [← hx, hc1]
        exact hreset
      have h3 : should_enable_based_on_time c2 now excess soc = (false, c2) := by
        unfold should_enable_based_on_time
        rw [hc2, hreset]
        simp [hdd]
      rw [h3]
      dsimp only
      rw [hc2]
    · dsimp only
      have hc2min : c2.min_current = c1.min_current := by
        have hx := sdbot_snd_min_current c1 now excess
        rw [h2] at hx
        dsimp only at hx
        rw [hx, hc1]
      rw [hc2min, hc1]
  · intro c today hne
    refine ⟨reset_of_ne c today hne, ?_⟩
    intro now excess soc voltage hdate
    have key : is_unrestricted_period c now =
        is_unrestricted_period
          { c with daily_disabled := false, last_reset_date := today } now := by
      unfold is_unrestricted_period
      rw [hdate, reset_of_ne c today hne, reset_of_eq _ today rfl]
    unfold get_time_based_current
    rw [key]

/-- C5 amended witness: at 19:00 (outside the 00:10–06:00 unrestricted
window, after day_close 18:00) with excess −1, the latch is set and
`(6, disabled)` is emitted. -/
theorem C5_amended_daily_latch_witness :
    (get_time_based_current
      { switch_on_time := 39600, switch_off_time := 64800, fixed_charge_start := 600,
        fixed_charge_end := 21600, fixed_charge_current := 40,
        min_excess_threshold := 1440, battery_soc_threshold := 85, min_current := 6,
        max_current := 30, daily_disabled := false, last_reset_date := 0 }
      { date := 0, timeOfDay := 68400 } (-1) 50 240).1 = (6, false) ∧
    ((get_time_based_current
      { switch_on_time := 39600, switch_off_time := 64800, fixed_charge_start := 600,
        fixed_charge_end := 21600, fixed_charge_current := 40,
        min_excess_threshold := 1440, battery_soc_threshold := 85, min_current := 6,
        max_current := 30, daily_disabled := false, last_reset_date := 0 }
      { date := 0, timeOfDay := 68400 } (-1) 50 240).2).daily_disabled = true :=
  C5_amended_daily_latch.1
    { switch_on_time := 39600, switch_off_time := 64800, fixed_charge_start := 600,
      fixed_charge_end := 21600, fixed_charge_current := 40,
      min_excess_threshold := 1440, battery_soc_threshold := 85, min_current := 6,
      max_current := 30, daily_disabled := false, last_reset_date := 0 }
    { date := 0, timeOfDay := 68400 } (-1) 50 240
    (by decide) (by decide) (by decide)

end Solax
